/-
Verification of the Klampt geometry binding layer (`Python/klampt/src/geometry.h`).

The repository exposes this layer as a C++ header of declarations and doc
comments; the behaviour of each operation is specified in the header's doc
comments and in the accompanying design document.  The development below gives
a shallow embedding of the data model (TriangleMesh, PointCloud, VolumeGrid,
ConvexHull, GeometricPrimitive, and the Geometry3D facade) and of the
operations the claims are about.  Real coordinates are modelled by `ℚ`, with
a rational square root standing in for the Euclidean square root (exact on
perfect squares), so every definition is executable and every concrete
instance can be settled by `decide`.
-/
import Mathlib

set_option linter.unusedVariables false

/-- Coordinate triple, modelling a `double[3]` in the source. -/
abbrev Vec3 := ℚ × ℚ × ℚ

/-- Row-major 3x3 matrix, modelling a `double[9]` rotation in the source. -/
abbrev Mat3 := Vec3 × Vec3 × Vec3

/-- Componentwise addition of coordinate triples. -/
def addV (a b : Vec3) : Vec3 := (a.1 + b.1, a.2.1 + b.2.1, a.2.2 + b.2.2)

/-- Componentwise subtraction of coordinate triples. -/
def subV (a b : Vec3) : Vec3 := (a.1 - b.1, a.2.1 - b.2.1, a.2.2 - b.2.2)

/-- Componentwise negation of a coordinate triple. -/
def negV (a : Vec3) : Vec3 := (-a.1, -a.2.1, -a.2.2)

/-- Scalar multiple of a coordinate triple. -/
def smulV (s : ℚ) (a : Vec3) : Vec3 := (s * a.1, s * a.2.1, s * a.2.2)

/-- Dot product of coordinate triples. -/
def dotV (a b : Vec3) : ℚ := a.1 * b.1 + a.2.1 * b.2.1 + a.2.2 * b.2.2

/-- Matrix-vector product `R*v` for a row-major 3x3 matrix. -/
def mulMV (m : Mat3) (v : Vec3) : Vec3 := (dotV m.1 v, dotV m.2.1 v, dotV m.2.2 v)

/-- Identity rotation. -/
def idMat : Mat3 := ((1, 0, 0), (0, 1, 0), (0, 0, 1))

/-- Zero translation. -/
def zeroV : Vec3 := (0, 0, 0)

/-- Rigid action `v ↦ R*v + t` applied to a point. -/
def applyRT (r : Mat3) (t : Vec3) (v : Vec3) : Vec3 := addV (mulMV r v) t

/-- Squared Euclidean norm of a coordinate triple. -/
def sqNormV (a : Vec3) : ℚ := a.1 * a.1 + a.2.1 * a.2.1 + a.2.2 * a.2.2

/-- Integer square root by bounded search (kernel-reducible; exact on
perfect squares, rounded down otherwise). -/
def natSqrt (n : ℕ) : ℕ :=
  ((List.range (n + 1)).filter (fun k => k * k ≤ n)).length - 1

/-- Rational square root stand-in for the external Euclidean norm
computation: exact on perfect squares of naturals over perfect squares
of naturals, rounded otherwise.  Any fixed function of the squared norm
serves the modelled claims; this one is executable. -/
def ratSqrt (q : ℚ) : ℚ :=
  (natSqrt q.num.toNat : ℚ) / (natSqrt q.den : ℚ)

/-- Length of a coordinate triple, modelling the Euclidean norm by the
rational square root of the squared norm. -/
def normV (a : Vec3) : ℚ := ratSqrt (sqNormV a)

/-- Distance between two points under `normV`. -/
def dist3 (a b : Vec3) : ℚ := normV (subV a b)

/-- Groups a flattened coordinate list `[x1,y1,z1,x2,y2,z2,...]` into
coordinate triples, the layout documented for `TriangleMesh.vertices`,
`PointCloud.vertices` and `ConvexHull.points`. -/
def toTriples : List ℚ → List Vec3
  | x :: y :: z :: rest => (x, y, z) :: toTriples rest
  | _ => []

/-- Flattens a list of coordinate triples back into a coordinate list. -/
def ofTriples : List Vec3 → List ℚ
  | [] => []
  | (x, y, z) :: rest => x :: y :: z :: ofTriples rest

/-- Applies the rigid transform `v = R*v + t` to every triple of a flattened
coordinate list, as `TriangleMesh::transform` and friends document. -/
def transformFlat (r : Mat3) (t : Vec3) (l : List ℚ) : List ℚ :=
  ofTriples ((toTriples l).map (applyRT r t))

/-- A 3D indexed triangle mesh (`struct TriangleMesh` in geometry.h):
a flattened vertex coordinate list and a flattened triangle index list. -/
structure TriangleMesh where
  indices : List ℤ
  vertices : List ℚ
deriving DecidableEq, Repr

/-- Point set for a convex hull (`struct ConvexHull` in geometry.h):
a flattened coordinate list of seed points. -/
structure ConvexHull where
  points : List ℚ
deriving DecidableEq, Repr

/-- A 3D point cloud (`struct PointCloud` in geometry.h): flattened vertex
list, named property channels with one value per point stored point-major,
and a string settings map (modelled as an association list). -/
structure PointCloud where
  vertices : List ℚ
  propertyNames : List String
  properties : List ℚ
  settings : List (String × String)
deriving DecidableEq, Repr

/-- A geometric primitive (`struct GeometricPrimitive` in geometry.h): a type
tag string and a small parameter vector. -/
structure GeometricPrimitive where
  type : String
  properties : List ℚ
deriving DecidableEq, Repr

/-- An axis-aligned volumetric grid (`class VolumeGrid` in geometry.h):
six bbox bounds, three dims, and a flattened value array indexed as
`i*dims[1]*dims[2] + j*dims[2] + k`. -/
structure VolumeGrid where
  bbox : List ℚ
  dims : List ℕ
  values : List ℚ
deriving DecidableEq, Repr

/-- Error taxonomy of the design document (section 7): unsupported dispatch
cell, unsupported conversion pair, invalid argument, or I/O failure. -/
inductive GeomError where
  | unsupportedOp : GeomError
  | unsupportedConversion : GeomError
  | invalidArgument : GeomError
  | ioFailure : GeomError
deriving DecidableEq, Repr

deriving instance DecidableEq for Except

/-- The representation kinds of the tagged union (design document section 3). -/
inductive Kind where
  | primitiveK : Kind
  | meshK : Kind
  | pointCloudK : Kind
  | volumeGridK : Kind
  | convexHullK : Kind
  | groupK : Kind
deriving DecidableEq, Repr

/-- The tagged union of concrete representation data held by a `Geometry3D`
(Group recursion is outside the scope of the modelled claims). -/
inductive Representn where
  | mesh : TriangleMesh → Representn
  | pointCloud : PointCloud → Representn
  | volumeGrid : VolumeGrid → Representn
  | convexHull : ConvexHull → Representn
  | primitive : GeometricPrimitive → Representn
deriving DecidableEq, Repr

/-- Kind tag of a representation value. -/
def Representn.kind : Representn → Kind
  | .mesh _ => .meshK
  | .pointCloud _ => .pointCloudK
  | .volumeGrid _ => .volumeGridK
  | .convexHull _ => .convexHullK
  | .primitive _ => .primitiveK

/-- Modelled from the spec: the `Geometry3D` facade (geometry.h lines
378-601).  The C++ class hides its state behind `void* geomPtr`; the design
document states that a handle carries a representation, a current rigid
transform applied virtually (identity by default), a collision margin, a
lazily built acceleration-structure cache, and a standalone-vs-referenced
ownership flag. -/
structure Geometry3D where
  rep : Representn
  curR : Mat3
  curT : Vec3
  cacheValid : Bool
  margin : ℚ
  standalone : Bool
deriving DecidableEq, Repr

/-- Modelled from the spec: `Geometry3D::setCurrentTransform` (geometry.h line
448) replaces the current transform "not modifying the underlying data"; the
design document adds that the acceleration cache is not invalidated either. -/
def Geometry3D.setCurrentTransform (g : Geometry3D) (r : Mat3) (t : Vec3) : Geometry3D :=
  { g with curR := r, curT := t }

/-- Modelled from the spec: committing a transform into a primitive's stored
parameter vector (the mutators "permanently modify the data" for every
representation kind, geometry.h lines 451-465).  Positional parameters are
transformed triple-wise: a point's coordinates, a segment's two endpoints
and an AABB's two corners are coordinate triples; a sphere's center is
transformed while its radius, invariant under a rigid motion, is kept. -/
def GeometricPrimitive.transformPrim (g : GeometricPrimitive) (r : Mat3) (t : Vec3) :
    GeometricPrimitive :=
  if g.type = "sphere" then
    match g.properties with
    | [x, y, z, rad] => { g with properties := transformFlat r t [x, y, z] ++ [rad] }
    | _ => { g with properties := transformFlat r t g.properties }
  else
    { g with properties := transformFlat r t g.properties }

/-- Modelled from the spec: data-mutating transform on each representation's
stored local-frame coordinates (geometry.h `translate`/`transform` docs:
"Permanently modifies the data").  Mesh and point-cloud vertices, hull seed
points and primitive parameters are transformed in place; for a `VolumeGrid`
the transform is applied to the two bbox corners (the grid stays
axis-aligned). -/
def Representn.transformData (rep : Representn) (r : Mat3) (t : Vec3) : Representn :=
  match rep with
  | .mesh m => .mesh { m with vertices := transformFlat r t m.vertices }
  | .pointCloud pc => .pointCloud { pc with vertices := transformFlat r t pc.vertices }
  | .volumeGrid vg => .volumeGrid { vg with bbox := transformFlat r t vg.bbox }
  | .convexHull h => .convexHull { h with points := transformFlat r t h.points }
  | .primitive p => .primitive (p.transformPrim r t)

/-- Modelled from the spec: `Geometry3D::transform` (geometry.h line 465)
"Permanently modifies the data and resets any collision data structures"; per
the design document (section 4.2) it commits the transform into the stored
data, resets the current transform to identity and invalidates the cache. -/
def Geometry3D.transform (g : Geometry3D) (r : Mat3) (t : Vec3) : Geometry3D :=
  { g with rep := g.rep.transformData r t, curR := idMat, curT := zeroV, cacheValid := false }

/-- Modelled from the spec: `Geometry3D::translate` (geometry.h line 453),
the pure-translation case of `transform`. -/
def Geometry3D.translate (g : Geometry3D) (t : Vec3) : Geometry3D :=
  g.transform idMat t

/-- Modelled from the spec: `Geometry3D::rotate` (geometry.h line 462),
the pure-rotation case of `transform`. -/
def Geometry3D.rotate (g : Geometry3D) (r : Mat3) : Geometry3D :=
  g.transform r zeroV

/-- Diagonal scaling matrix for the per-axis `scale` variant. -/
def diagMat (sx sy sz : ℚ) : Mat3 := ((sx, 0, 0), (0, sy, 0), (0, 0, sz))

/-- Modelled from the spec: `Geometry3D::scale` (geometry.h lines 456-459),
scaling as the linear case of `transform`. -/
def Geometry3D.scale (g : Geometry3D) (sx sy sz : ℚ) : Geometry3D :=
  g.transform (diagMat sx sy sz) zeroV

/-- Modelled from the spec: the directed conversion capability table of
`Geometry3D::convert` (geometry.h lines 475-504).  The enumerated available
conversions are TriangleMesh to PointCloud/VolumeGrid/ConvexHull, PointCloud
to TriangleMesh/ConvexHull, GeometricPrimitive to anything, VolumeGrid to
TriangleMesh/PointCloud, and ConvexHull to TriangleMesh/PointCloud. -/
def convertSupported : Kind → Kind → Bool
  | .meshK, .pointCloudK => true
  | .meshK, .volumeGridK => true
  | .meshK, .convexHullK => true
  | .pointCloudK, .meshK => true
  | .pointCloudK, .convexHullK => true
  | .primitiveK, .meshK => true
  | .primitiveK, .pointCloudK => true
  | .primitiveK, .volumeGridK => true
  | .primitiveK, .convexHullK => true
  | .volumeGridK, .meshK => true
  | .volumeGridK, .pointCloudK => true
  | .convexHullK, .meshK => true
  | .convexHullK, .pointCloudK => true
  | _, _ => false

/-- The conversion table as the specification sentence enumerates it:
"Mesh-PointCloud, Mesh-Grid, Mesh-ConvexHull, PointCloud-ConvexHull each both
ways, Primitive to any, Grid-PointCloud both ways, ConvexHull to
Mesh/PointCloud".  Written from the spec's words, to be compared with the
table `convertSupported` read off the source's doc comment. -/
def claimConversionTable : Kind → Kind → Bool
  | .meshK, .pointCloudK => true
  | .pointCloudK, .meshK => true
  | .meshK, .volumeGridK => true
  | .volumeGridK, .meshK => true
  | .meshK, .convexHullK => true
  | .convexHullK, .meshK => true
  | .pointCloudK, .convexHullK => true
  | .convexHullK, .pointCloudK => true
  | .primitiveK, .meshK => true
  | .primitiveK, .pointCloudK => true
  | .primitiveK, .volumeGridK => true
  | .primitiveK, .convexHullK => true
  | .volumeGridK, .pointCloudK => true
  | .pointCloudK, .volumeGridK => true
  | _, _ => false

/-- Empty representation value of a given kind, standing in for the output of
the conversion algorithms, which are out-of-scope external collaborators
(HACD, Qhull, marching cubes; design document section 1). -/
def reprOfKind : Kind → Representn
  | .meshK => .mesh ⟨[], []⟩
  | .pointCloudK => .pointCloud ⟨[], [], [], []⟩
  | .volumeGridK => .volumeGrid ⟨[], [], []⟩
  | .convexHullK => .convexHull ⟨[]⟩
  | _ => .primitive ⟨"point", [0, 0, 0]⟩

/-- Modelled from the spec: `Geometry3D::convert` (geometry.h lines 475-504).
A registered (source kind, target kind) pair yields a new standalone handle
of the target kind with a cold cache; an unregistered pair fails with
`UnsupportedConversion` (design document section 4.5).  The numeric content
of the converted data comes from out-of-scope collaborator algorithms and is
abstracted by `reprOfKind`. -/
def Geometry3D.convert (g : Geometry3D) (tgt : Kind) (param : ℚ) : Except GeomError Geometry3D :=
  if convertSupported g.rep.kind tgt then
    .ok { rep := reprOfKind tgt, curR := g.curR, curT := g.curT,
          cacheValid := false, margin := 0, standalone := true }
  else
    .error .unsupportedConversion

/-- Recursive maximiser of `dotV · dir` over a point list; returns `none` only
on the empty list. -/
def bestSupport (dir : Vec3) : List Vec3 → Option Vec3
  | [] => none
  | p :: rest =>
    match bestSupport dir rest with
    | none => some p
    | some q => if dotV q dir ≤ dotV p dir then some p else some q

/-- Points of a geometry's convex hull expressed in its current world frame
(current transform applied to the stored local-frame seed points). -/
def hullWorldPoints (g : Geometry3D) (h : ConvexHull) : List Vec3 :=
  (toTriples h.points).map (applyRT g.curR g.curT)

/-- Modelled from the spec: `Geometry3D::support` (geometry.h lines 590-596),
"Calculates the furthest point on this geometry in the direction dir.
Supported types: ConvexHull."  For a ConvexHull handle it maximises the dot
product with `dir` over the world-frame hull points; for every other
representation kind it fails with `UnsupportedOperation`. -/
def Geometry3D.support (g : Geometry3D) (dir : Vec3) : Except GeomError Vec3 :=
  match g.rep with
  | .convexHull h =>
    match bestSupport dir (hullWorldPoints g h) with
    | some p => .ok p
    | none => .error .invalidArgument
  | _ => .error .unsupportedOp

/-- Number of property channels of a point cloud. -/
def PointCloud.numProperties (pc : PointCloud) : ℕ := pc.propertyNames.length

/-- Number of points of a point cloud (coordinates are stored flattened). -/
def PointCloud.numPoints (pc : PointCloud) : ℕ := pc.vertices.length / 3

/-- Property `j` of point `i`, using the point-major flattened layout
documented for `PointCloud.properties` (geometry.h lines 86-89). -/
def PointCloud.getProperty (pc : PointCloud) (i j : ℕ) : ℚ :=
  pc.properties.getD (i * pc.numProperties + j) 0

/-- Coordinates of point `i` of a point cloud. -/
def PointCloud.getPoint (pc : PointCloud) (i : ℕ) : Vec3 :=
  (pc.vertices.getD (3 * i) 0, pc.vertices.getD (3 * i + 1) 0, pc.vertices.getD (3 * i + 2) 0)

/-- Modelled from the spec: `PointCloud::join` (geometry.h lines 187-189),
"Adds the given point cloud to this one.  They must share the same properties
or else an exception is raised."  Matching property channels concatenate the
vertex and property arrays (preserving each point's property row); mismatched
channels fail with `InvalidArgument` and no partial merge occurs. -/
def PointCloud.join (pc other : PointCloud) : Except GeomError PointCloud :=
  if pc.propertyNames = other.propertyNames then
    .ok { vertices := pc.vertices ++ other.vertices,
          propertyNames := pc.propertyNames,
          properties := pc.properties ++ other.properties,
          settings := pc.settings }
  else
    .error .invalidArgument

/-- Interpreted shape of the Python-constructible `GeometricPrimitive`
sub-types that the modelled distance dispatch handles analytically. -/
inductive PrimShape where
  | pointS : Vec3 → PrimShape
  | sphereS : Vec3 → ℚ → PrimShape
deriving DecidableEq, Repr

/-- Reads the shape of a primitive from its type tag and parameter vector
(`setPoint` stores 3 parameters, `setSphere` stores center then radius). -/
def interpPrim (g : GeometricPrimitive) : Option PrimShape :=
  if g.type = "point" then
    match g.properties with
    | [x, y, z] => some (.pointS (x, y, z))
    | _ => none
  else if g.type = "sphere" then
    match g.properties with
    | [x, y, z, r] => some (.sphereS (x, y, z) r)
    | _ => none
  else none

/-- Rigid transform applied to an interpreted primitive shape. -/
def transformShape (r : Mat3) (t : Vec3) : PrimShape → PrimShape
  | .pointS p => .pointS (applyRT r t p)
  | .sphereS c rad => .sphereS (applyRT r t c) rad

/-- Interpreted primitive shape of a handle, expressed in its current world
frame; `none` for non-primitive handles and unhandled sub-types. -/
def worldShape (g : Geometry3D) : Option PrimShape :=
  match g.rep with
  | .primitive p => (interpPrim p).map (transformShape g.curR g.curT)
  | _ => none

/-- Transpose of a row-major 3x3 matrix (the inverse of a rotation). -/
def transposeM (m : Mat3) : Mat3 :=
  ((m.1.1, m.2.1.1, m.2.2.1),
   (m.1.2.1, m.2.1.2.1, m.2.2.2.1),
   (m.1.2.2, m.2.1.2.2, m.2.2.2.2))

/-- Pulls a world-coordinate point back into a handle's local frame by the
inverse of its current rigid transform. -/
def localPoint (g : Geometry3D) (p : Vec3) : Vec3 :=
  mulMV (transposeM g.curR) (subV p g.curT)

/-- Euclidean distance between interpreted primitives, negative on
penetration (the sphere cases subtract the radii). -/
def distShapes : PrimShape → PrimShape → ℚ
  | .pointS p, .pointS q => dist3 p q
  | .pointS p, .sphereS c r => dist3 p c - r
  | .sphereS c r, .pointS p => dist3 p c - r
  | .sphereS c1 r1, .sphereS c2 r2 => dist3 c1 c2 - r1 - r2

/-- Clamped nearest-cell index along one grid axis. -/
def gridCellIndex (lo hi : ℚ) (n : ℕ) (x : ℚ) : ℕ :=
  if hi ≤ lo ∨ n = 0 then 0
  else min (n - 1) (Int.toNat (Rat.floor ((x - lo) * n / (hi - lo))))

/-- Modelled from the spec: sampling a `VolumeGrid` at a local-frame point.
The grid stores a signed distance transform "with > 0 indicating outside and
< 0 indicating inside" (geometry.h lines 217-220); the sample reads the value
of the cell containing the point using the documented flattened index
`i*dims[1]*dims[2] + j*dims[2] + k` and the bbox layout
`(xmin,ymin,zmin),(xmax,ymax,zmax)`. -/
def VolumeGrid.sample (vg : VolumeGrid) (p : Vec3) : ℚ :=
  let nx := vg.dims.getD 0 0
  let ny := vg.dims.getD 1 0
  let nz := vg.dims.getD 2 0
  let i := gridCellIndex (vg.bbox.getD 0 0) (vg.bbox.getD 3 0) nx p.1
  let j := gridCellIndex (vg.bbox.getD 1 0) (vg.bbox.getD 4 0) ny p.2.1
  let k := gridCellIndex (vg.bbox.getD 2 0) (vg.bbox.getD 5 0) nz p.2.2
  vg.values.getD (i * ny * nz + j * nz + k) 0

/-- Grid regards a world point as enclosed when the signed-distance sample at
that point is negative, per the documented sign convention of `VolumeGrid`
(geometry.h lines 217-220). -/
def gridEncloses (g : Geometry3D) (vg : VolumeGrid) (p : Vec3) : Prop :=
  vg.sample (localPoint g p) < 0

/-- World point outside the solid represented by the grid: positive
signed-distance sample, per the same documented sign convention. -/
def gridOutside (g : Geometry3D) (vg : VolumeGrid) (p : Vec3) : Prop :=
  0 < vg.sample (localPoint g p)

/-- Modelled from the spec: the kind-pair dispatch of `Geometry3D::distance`
(geometry.h lines 534-559) restricted to the analytically specified cells:
GeometricPrimitive-GeometricPrimitive (Python-supported sub-types) and
GeometricPrimitive-VolumeGrid (the grid's signed distance sample, negative on
penetration).  Every other cell of the modelled matrix reports
`UnsupportedOperation` rather than a default value. -/
def Geometry3D.distance (a b : Geometry3D) : Except GeomError ℚ :=
  match a.rep, b.rep with
  | .primitive _, .primitive _ =>
    match worldShape a, worldShape b with
    | some s1, some s2 => .ok (distShapes s1 s2)
    | _, _ => .error .unsupportedOp
  | .primitive _, .volumeGrid vg =>
    match worldShape a with
    | some (.pointS p) => .ok (vg.sample (localPoint b p))
    | _ => .error .unsupportedOp
  | .volumeGrid vg, .primitive _ =>
    match worldShape b with
    | some (.pointS p) => .ok (vg.sample (localPoint a p))
    | _ => .error .unsupportedOp
  | _, _ => .error .unsupportedOp

/-- Settings tuple of the `_ext` distance queries (`class
DistanceQuerySettings`, geometry.h lines 250-274). -/
structure DistanceQuerySettings where
  relErr : ℚ
  absErr : ℚ
  upperBound : ℚ
deriving DecidableEq, Repr

/-- Branch-and-bound short circuit of the `_ext` queries: a computed distance
reaching the upper bound is reported as exactly the upper bound. -/
def extClamp (d u : ℚ) : ℚ := if u ≤ d then u else d

/-- Modelled from the spec: `Geometry3D::distance_ext` (geometry.h lines
560-564): the customizable query may break early once the distance reaches
`settings.upperBound`, in which case exactly `upperBound` is returned as the
short-circuit signal; otherwise the computed distance is reported. -/
def Geometry3D.distance_ext (a b : Geometry3D) (s : DistanceQuerySettings) :
    Except GeomError ℚ :=
  (a.distance b).map (fun d => extClamp d s.upperBound)

/-- Standalone world-frame point geometry used by the point queries. -/
def pointGeom (p : Vec3) : Geometry3D :=
  { rep := .primitive ⟨"point", [p.1, p.2.1, p.2.2]⟩,
    curR := idMat, curT := zeroV, cacheValid := false, margin := 0, standalone := true }

/-- Modelled from the spec: `Geometry3D::distance_point_ext` (geometry.h line
533), the `_ext` query against a world-coordinate point. -/
def Geometry3D.distance_point_ext (g : Geometry3D) (pt : Vec3) (s : DistanceQuerySettings) :
    Except GeomError ℚ :=
  g.distance_ext (pointGeom pt) s

/-- Result record of the fancy distance queries (`class DistanceQueryResult`,
geometry.h lines 276-308). -/
structure DistanceQueryResult where
  d : ℚ
  hasClosestPoints : Bool
  hasGradients : Bool
  cp1 : Vec3
  cp2 : Vec3
  grad1 : Vec3
  grad2 : Vec3
  elem1 : ℤ
  elem2 : ℤ
deriving DecidableEq, Repr

/-- Closest-point and gradient data for a point query against a sphere: the
gradients of the two objects' signed distance fields at the closest points,
each computed from its own object's field. -/
def spherePointQuery (c : Vec3) (r : ℚ) (p : Vec3) : DistanceQueryResult :=
  if p = c then
    { d := -r, hasClosestPoints := true, hasGradients := false,
      cp1 := p, cp2 := p, grad1 := zeroV, grad2 := zeroV, elem1 := 0, elem2 := 0 }
  else
    let n := dist3 p c
    let g1 := smulV (1 / n) (subV p c)
    let g2 := smulV (1 / n) (subV c p)
    { d := n - r, hasClosestPoints := true, hasGradients := true,
      cp1 := addV c (smulV r g1), cp2 := p, grad1 := g1, grad2 := g2,
      elem1 := 0, elem2 := 0 }

/-- Closest-point and gradient data for a point query against a point
geometry, with the same per-object gradient construction. -/
def pointPointQuery (q : Vec3) (p : Vec3) : DistanceQueryResult :=
  if p = q then
    { d := 0, hasClosestPoints := true, hasGradients := false,
      cp1 := q, cp2 := p, grad1 := zeroV, grad2 := zeroV, elem1 := 0, elem2 := 0 }
  else
    let n := dist3 p q
    { d := n, hasClosestPoints := true, hasGradients := true,
      cp1 := q, cp2 := p,
      grad1 := smulV (1 / n) (subV p q), grad2 := smulV (1 / n) (subV q p),
      elem1 := 0, elem2 := 0 }

/-- Modelled from the spec: `Geometry3D::distance_point` (geometry.h lines
522-528) for the analytically specified primitive cells, returning distance,
closest points and gradients. -/
def Geometry3D.distance_point (g : Geometry3D) (pt : Vec3) :
    Except GeomError DistanceQueryResult :=
  match worldShape g with
  | some (.sphereS c r) => .ok (spherePointQuery c r pt)
  | some (.pointS q) => .ok (pointPointQuery q pt)
  | none => .error .unsupportedOp

/-- Token of the serialized primitive text form: the type tag word or one
numeric field.  The numeral-to-text encoding of individual tokens is an
out-of-scope format collaborator (design document sections 1 and 6), so the
grammar is modelled at the token level. -/
inductive Tok where
  | tag : String → Tok
  | num : ℚ → Tok
deriving DecidableEq, Repr

/-- Number of numeric parameters of each supported primitive sub-type, read
off the `GeometricPrimitive` setters (geometry.h lines 206-209): a point has
3, a sphere 4, a segment 6 and an AABB 6. -/
def primArity (t : String) : Option ℕ :=
  if t = "point" then some 3
  else if t = "sphere" then some 4
  else if t = "segment" then some 6
  else if t = "aabb" then some 6
  else none

/-- Numeric fields of a token list. -/
def numsOf (ts : List Tok) : List ℚ :=
  ts.filterMap (fun t => match t with | .num q => some q | .tag _ => none)

/-- Checks that every token is numeric. -/
def allNums (ts : List Tok) : Bool :=
  ts.all (fun t => match t with | .num _ => true | .tag _ => false)

/-- Modelled from the spec: `GeometricPrimitive::saveString` (geometry.h line
211) emits the type tag followed by the parameter vector. -/
def saveTokens (g : GeometricPrimitive) : List Tok :=
  .tag g.type :: g.properties.map .num

/-- Modelled from the spec: `GeometricPrimitive::loadString` (geometry.h line
210) parses a type tag followed by exactly the sub-type's number of numeric
fields, failing on anything else. -/
def loadTokens : List Tok → Option GeometricPrimitive
  | .tag t :: rest =>
    match primArity t with
    | some n =>
      if rest.length = n then
        if allNums rest then some ⟨t, numsOf rest⟩ else none
      else none
    | none => none
  | _ => none

/-- A primitive value is well formed when its parameter vector has exactly
the arity of its supported type tag. -/
def WellFormedPrim (g : GeometricPrimitive) : Prop :=
  primArity g.type = some g.properties.length

/-- A token string belongs to the grammar when it is a supported type tag
followed by exactly that sub-type's number of numeric fields. -/
def wellFormedToks : List Tok → Bool
  | .tag t :: rest =>
    match primArity t with
    | some n => decide (rest.length = n) && allNums rest
    | none => false
  | _ => false

/-- One contact sample of a contact query: both surface points, the outward
normal from the first object to the second, the penetration depth and the
element indices (the row form of `ContactQueryResult`). -/
structure ContactPoint where
  point1 : Vec3
  point2 : Vec3
  normal : Vec3
  depth : ℚ
  elem1 : ℤ
  elem2 : ℤ
deriving DecidableEq, Repr

/-- Fixed total lexicographic key on coordinate triples used by the
deterministic clustering sort. -/
def vecLE (a b : Vec3) : Bool :=
  decide (a.1 < b.1 ∨ (a.1 = b.1 ∧ (a.2.1 < b.2.1 ∨ (a.2.1 = b.2.1 ∧ a.2.2 ≤ b.2.2))))

/-- Spatial sort key on contact points: lexicographic on the first contact
point's coordinates. -/
def contactLE (c1 c2 : ContactPoint) : Bool :=
  vecLE c1.point1 c2.point1

/-- Ordered insertion for the stable contact sort. -/
def insertContact (c : ContactPoint) : List ContactPoint → List ContactPoint
  | [] => [c]
  | d :: rest => if contactLE c d then c :: d :: rest else d :: insertContact c rest

/-- Stable insertion sort of contact points by the fixed spatial key. -/
def sortContacts : List ContactPoint → List ContactPoint
  | [] => []
  | c :: rest => insertContact c (sortContacts rest)

/-- Splits a list into consecutive chunks of `c` elements (the last chunk may
be shorter); every chunk of a nonempty list is nonempty. -/
def chunksOf (c : ℕ) : List α → List (List α)
  | [] => []
  | x :: xs => (x :: xs.take (c - 1)) :: chunksOf c (xs.drop (c - 1))
  termination_by l => l.length
  decreasing_by simp [List.length_drop]; omega

/-- First element of every chunk. -/
def headsOf (ls : List (List α)) : List α :=
  ls.filterMap List.head?

/-- Modelled from the spec: the contact clustering post-process (design
document section 4.3).  When a limit `maxContacts > 0` is supplied and the
raw contact count exceeds it, the contacts are sorted by the fixed spatial
key, grouped into at most `maxContacts` runs of nearby points, and each run
is replaced by its representative contact point; otherwise the raw contacts
are returned unchanged. -/
def clusterContacts (maxContacts : ℕ) (cs : List ContactPoint) : List ContactPoint :=
  if maxContacts = 0 ∨ cs.length ≤ maxContacts then cs
  else
    headsOf (chunksOf ((cs.length + maxContacts - 1) / maxContacts) (sortContacts cs))

/-- Result record of a contact query (`class ContactQueryResult`, geometry.h
lines 310-337), with the per-contact rows stored column-wise. -/
structure ContactQueryResult where
  depths : List ℚ
  points1 : List Vec3
  points2 : List Vec3
  normals : List Vec3
  elems1 : List ℤ
  elems2 : List ℤ
deriving DecidableEq, Repr

/-- Packs a list of contact samples into the column-wise result record. -/
def mkContactResult (cs : List ContactPoint) : ContactQueryResult :=
  { depths := cs.map (fun c => c.depth),
    points1 := cs.map (fun c => c.point1),
    points2 := cs.map (fun c => c.point2),
    normals := cs.map (fun c => c.normal),
    elems1 := cs.map (fun c => c.elem1),
    elems2 := cs.map (fun c => c.elem2) }

/-- Effective separation threshold of a contact query: the stored collision
margins of both geometries plus both explicit paddings (geometry.h lines
569-572). -/
def padThreshold (a b : Geometry3D) (p1 p2 : ℚ) : ℚ :=
  a.margin + b.margin + p1 + p2

/-- Outward contact normal from the first sphere to the second (the
zero-vector sentinel when the centers coincide, since the inverse norm of the
zero vector is zero). -/
def sphereNormal (c1 c2 : Vec3) : Vec3 :=
  smulV (1 / dist3 c1 c2) (subV c2 c1)

/-- Modelled from the spec: raw contact generation of `Geometry3D::contacts`
(geometry.h lines 569-589) for the analytic sphere-sphere cell.  Two padded
spheres within the padded separation threshold yield one contact on each
padded surface, an outward normal from the first to the second, and the
overlap of the padded surfaces as the nonnegative depth; separated spheres
yield no contact, and unmodelled cells report `UnsupportedOperation`. -/
def rawContacts (a b : Geometry3D) (p1 p2 : ℚ) : Except GeomError (List ContactPoint) :=
  match worldShape a, worldShape b with
  | some (.sphereS c1 r1), some (.sphereS c2 r2) =>
    if dist3 c1 c2 - r1 - r2 ≤ padThreshold a b p1 p2 then
      .ok [{ point1 := addV c1 (smulV (r1 + a.margin + p1) (sphereNormal c1 c2)),
             point2 := subV c2 (smulV (r2 + b.margin + p2) (sphereNormal c1 c2)),
             normal := sphereNormal c1 c2,
             depth := padThreshold a b p1 p2 - (dist3 c1 c2 - r1 - r2),
             elem1 := 0, elem2 := 0 }]
    else .ok []
  | _, _ => .error .unsupportedOp

/-- Modelled from the spec: `Geometry3D::contacts` (geometry.h lines 569-589):
raw contact generation followed, when `maxContacts != 0`, by the clustering
post-process. -/
def Geometry3D.contacts (a b : Geometry3D) (p1 p2 : ℚ) (maxContacts : ℕ) :
    Except GeomError ContactQueryResult :=
  (rawContacts a b p1 p2).map (fun cs => mkContactResult (clusterContacts maxContacts cs))

/-- Flat enumeration of the registered directed conversion pairs, read off
the doc comment of `Geometry3D::convert` (geometry.h lines 479-501). -/
def sourceConversionPairs : List (Kind × Kind) :=
  [(.meshK, .pointCloudK), (.meshK, .volumeGridK), (.meshK, .convexHullK),
   (.pointCloudK, .meshK), (.pointCloudK, .convexHullK),
   (.primitiveK, .meshK), (.primitiveK, .pointCloudK),
   (.primitiveK, .volumeGridK), (.primitiveK, .convexHullK),
   (.volumeGridK, .meshK), (.volumeGridK, .pointCloudK),
   (.convexHullK, .meshK), (.convexHullK, .pointCloudK)]

/-- Squared norms of opposite difference vectors agree. -/
theorem sqNormV_sub_comm (a b : Vec3) : sqNormV (subV a b) = sqNormV (subV b a) := by
  simp only [sqNormV, subV]
  ring

/-- Point-to-point distance is symmetric. -/
theorem dist3_symm (a b : Vec3) : dist3 a b = dist3 b a := by
  unfold dist3 normV
  rw [sqNormV_sub_comm]

/-- Primitive-shape distance is symmetric. -/
theorem distShapes_symm (s1 s2 : PrimShape) : distShapes s1 s2 = distShapes s2 s1 := by
  cases s1 <;> cases s2 <;> simp [distShapes]
  case pointS.pointS p q => exact dist3_symm p q
  case sphereS.sphereS c1 r1 c2 r2 => rw [dist3_symm]; ring

/-- Negation commutes with scalar multiplication of triples. -/
theorem negV_smulV (s : ℚ) (v : Vec3) : negV (smulV s v) = smulV s (negV v) := by
  simp only [negV, smulV]
  ring_nf

/-- Opposite difference vectors are negations of each other. -/
theorem subV_swap (a b : Vec3) : subV a b = negV (subV b a) := by
  simp only [negV, subV]
  ring_nf

/-- The identity rigid action fixes every point. -/
theorem applyRT_id (p : Vec3) : applyRT idMat zeroV p = p := by
  simp [applyRT, mulMV, dotV, addV, idMat, zeroV]

/-- A returned support candidate belongs to the point list. -/
theorem bestSupport_mem (dir : Vec3) :
    ∀ (l : List Vec3) (p : Vec3), bestSupport dir l = some p → p ∈ l := by
  intro l
  induction l with
  | nil => intro p hp; simp [bestSupport] at hp
  | cons x xs ih =>
    intro p hp
    rw [bestSupport] at hp
    cases hrec : bestSupport dir xs with
    | none => rw [hrec] at hp; simp at hp; simp [hp]
    | some q =>
      rw [hrec] at hp
      by_cases hle : dotV q dir ≤ dotV x dir
      · simp [hle] at hp; simp [hp]
      · simp [hle] at hp
        exact List.mem_cons_of_mem x (ih p (hp ▸ hrec))

/-- The support maximiser returns `none` only on the empty list. -/
theorem bestSupport_eq_none (dir : Vec3) :
    ∀ (l : List Vec3), bestSupport dir l = none → l = [] := by
  intro l hl
  cases l with
  | nil => rfl
  | cons x xs =>
    rw [bestSupport] at hl
    cases hrec : bestSupport dir xs with
    | none => rw [hrec] at hl; simp at hl
    | some q =>
      rw [hrec] at hl
      by_cases hle : dotV q dir ≤ dotV x dir <;> simp [hle] at hl

/-- A returned support candidate maximises the dot product with the
direction over the point list. -/
theorem bestSupport_max (dir : Vec3) :
    ∀ (l : List Vec3) (p : Vec3), bestSupport dir l = some p →
      ∀ q ∈ l, dotV q dir ≤ dotV p dir := by
  intro l
  induction l with
  | nil => intro p hp; simp [bestSupport] at hp
  | cons x xs ih =>
    intro p hp q hq
    rw [bestSupport] at hp
    cases hrec : bestSupport dir xs with
    | none =>
      rw [hrec] at hp
      simp at hp
      have hxs := bestSupport_eq_none dir xs hrec
      subst hxs
      rcases List.mem_singleton.mp hq with rfl
      rw [hp]
    | some m =>
      rw [hrec] at hp
      rcases List.mem_cons.mp hq with rfl | hq2
      · by_cases hle : dotV m dir ≤ dotV q dir
        · simp [hle] at hp; rw [hp]
        · simp [hle] at hp; rw [← hp]; linarith [ih m hrec]
      · have hm := ih m hrec q hq2
        by_cases hle : dotV m dir ≤ dotV x dir
        · simp [hle] at hp; rw [← hp]; linarith
        · simp [hle] at hp; rw [← hp]; exact hm

/-- On a nonempty list the support maximiser returns a value. -/
theorem bestSupport_isSome (dir : Vec3) (l : List Vec3) (hne : l ≠ []) :
    ∃ p, bestSupport dir l = some p := by
  cases l with
  | nil => exact absurd rfl hne
  | cons x xs =>
    rw [bestSupport]
    cases bestSupport dir xs with
    | none => exact ⟨x, rfl⟩
    | some q =>
      by_cases hle : dotV q dir ≤ dotV x dir
      · exact ⟨x, by simp [hle]⟩
      · exact ⟨q, by simp [hle]⟩

/-- Extracting the numeric fields of a purely numeric encoding recovers the
original number list. -/
theorem numsOf_map_num (l : List ℚ) : numsOf (l.map .num) = l := by
  induction l with
  | nil => rfl
  | cons x xs ih => simp [numsOf] at ih ⊢; exact ih

/-- A purely numeric encoding passes the all-numeric check. -/
theorem allNums_map_num (l : List ℚ) : allNums (l.map .num) = true := by
  induction l with
  | nil => rfl
  | cons x xs ih => simp [allNums] at ih ⊢

/-- Re-encoding the numeric fields of an all-numeric token list recovers the
token list. -/
theorem map_num_numsOf :
    ∀ (ts : List Tok), allNums ts = true → (numsOf ts).map .num = ts := by
  intro ts
  induction ts with
  | nil => intro h; rfl
  | cons t rest ih =>
    intro h
    cases t with
    | tag s => simp [allNums] at h
    | num q =>
      have h2 : allNums rest = true := by
        simp only [allNums, List.all_cons] at h
        exact h
      simp only [numsOf, List.filterMap_cons, List.map_cons]
      exact congrArg (fun l => Tok.num q :: l) (ih h2)

/-- Inserting into the sorted contact list adds one element. -/
theorem length_insertContact (c : ContactPoint) :
    ∀ (l : List ContactPoint), (insertContact c l).length = l.length + 1 := by
  intro l
  induction l with
  | nil => rfl
  | cons d rest ih =>
    rw [insertContact]
    by_cases hle : contactLE c d <;> simp [hle, ih]

/-- Sorting the contact list preserves its length. -/
theorem length_sortContacts :
    ∀ (l : List ContactPoint), (sortContacts l).length = l.length := by
  intro l
  induction l with
  | nil => rfl
  | cons c rest ih =>
    rw [sortContacts, length_insertContact, ih]
    simp

/-- Membership after ordered insertion. -/
theorem mem_insertContact (c x : ContactPoint) :
    ∀ (l : List ContactPoint), x ∈ insertContact c l → x = c ∨ x ∈ l := by
  intro l
  induction l with
  | nil => intro h; simp [insertContact] at h; exact Or.inl h
  | cons d rest ih =>
    intro h
    rw [insertContact] at h
    by_cases hle : contactLE c d
    · simp [hle] at h
      rcases h with h | h | h
      · exact Or.inl h
      · exact Or.inr (by simp [h])
      · exact Or.inr (List.mem_cons_of_mem d h)
    · simp [hle] at h
      rcases h with h | h
      · exact Or.inr (by simp [h])
      · rcases ih h with h2 | h2
        · exact Or.inl h2
        · exact Or.inr (List.mem_cons_of_mem d h2)

/-- Membership is preserved by the contact sort. -/
theorem mem_sortContacts (x : ContactPoint) :
    ∀ (l : List ContactPoint), x ∈ sortContacts l → x ∈ l := by
  intro l
  induction l with
  | nil => intro h; simp [sortContacts] at h
  | cons c rest ih =>
    intro h
    rw [sortContacts] at h
    rcases mem_insertContact c x (sortContacts rest) h with h2 | h2
    · simp [h2]
    · exact List.mem_cons_of_mem c (ih h2)

/-- Fuel-indexed chunk count bound: a list of length at most `n * c` splits
into at most `n` chunks. -/
theorem chunksOf_length_le {α : Type} (c : ℕ) :
    ∀ (n : ℕ) (l : List α), l.length ≤ n * c → (chunksOf c l).length ≤ n := by
  intro n
  induction n with
  | zero =>
    intro l hl
    simp at hl
    subst hl
    simp [chunksOf]
  | succ n ih =>
    intro l hl
    cases l with
    | nil => simp [chunksOf]
    | cons x xs =>
      rw [chunksOf]
      simp only [List.length_cons]
      have hc : 1 ≤ c := by
        rcases Nat.eq_zero_or_pos c with hc0 | hc0
        · subst hc0
          simp at hl
        · exact hc0
      have hdrop : (xs.drop (c - 1)).length ≤ n * c := by
        rw [List.length_drop]
        simp at hl
        have : (n + 1) * c = n * c + c := by ring
        omega
      have := ih (xs.drop (c - 1)) hdrop
      omega

/-- Every element of every chunk belongs to the original list. -/
theorem mem_chunksOf {α : Type} (c : ℕ) :
    ∀ (n : ℕ) (l : List α) (ch : List α) (x : α),
      l.length ≤ n → ch ∈ chunksOf c l → x ∈ ch → x ∈ l := by
  intro n
  induction n with
  | zero =>
    intro l ch x hlen hch hx
    rcases List.eq_nil_of_length_eq_zero (Nat.le_zero.mp hlen) with rfl
    simp [chunksOf] at hch
  | succ n ih =>
    intro l ch x hlen hch hx
    cases l with
    | nil => simp [chunksOf] at hch
    | cons y ys =>
      rw [chunksOf] at hch
      rcases List.mem_cons.mp hch with h | h
      · subst h
        rcases List.mem_cons.mp hx with rfl | h2
        · simp
        · exact List.mem_cons_of_mem y (List.mem_of_mem_take h2)
      · have hys : (ys.drop (c - 1)).length ≤ n := by
          rw [List.length_drop]
          simp at hlen
          omega
        exact List.mem_cons_of_mem y (List.mem_of_mem_drop (ih (ys.drop (c - 1)) ch x hys h hx))

/-- Every chunk head belongs to its chunk. -/
theorem mem_headsOf {α : Type} (ls : List (List α)) (x : α) :
    x ∈ headsOf ls → ∃ ch ∈ ls, x ∈ ch := by
  intro h
  rcases List.mem_filterMap.mp h with ⟨ch, hch, hhead⟩
  exact ⟨ch, hch, List.mem_of_mem_head? (by simp [hhead])⟩

/-- The number of chunk heads is at most the number of chunks. -/
theorem length_headsOf {α : Type} (ls : List (List α)) :
    (headsOf ls).length ≤ ls.length :=
  List.length_filterMap_le _ ls

/-- Clustering representatives are drawn from the raw contact list. -/
theorem clusterContacts_subset (m : ℕ) (cs : List ContactPoint) :
    ∀ x ∈ clusterContacts m cs, x ∈ cs := by
  intro x hx
  rw [clusterContacts] at hx
  by_cases hcase : m = 0 ∨ cs.length ≤ m
  · simp [hcase] at hx; exact hx
  · simp [hcase] at hx
    rcases mem_headsOf _ x hx with ⟨ch, hch, hxch⟩
    exact mem_sortContacts x cs
      (mem_chunksOf _ (sortContacts cs).length (sortContacts cs) ch x le_rfl hch hxch)

/-- Clustering caps the contact count at the requested limit. -/
theorem clusterContacts_length_le (m : ℕ) (cs : List ContactPoint)
    (hm : 0 < m) (hgt : m < cs.length) :
    (clusterContacts m cs).length ≤ m := by
  rw [clusterContacts]
  have hcase : ¬(m = 0 ∨ cs.length ≤ m) := by omega
  simp only [hcase, if_false]
  refine le_trans (length_headsOf _) ?_
  apply chunksOf_length_le
  rw [length_sortContacts]
  have hmod := Nat.div_add_mod (cs.length + m - 1) m
  have hlt : (cs.length + m - 1) % m < m := Nat.mod_lt _ hm
  omega

/-- Every element of every chunk head list belongs to the chunked list. -/
theorem headsOf_chunksOf_subset {α : Type} (c : ℕ) (l : List α) :
    ∀ x ∈ headsOf (chunksOf c l), x ∈ l := by
  intro x hx
  rcases mem_headsOf _ x hx with ⟨ch, hch, hxch⟩
  exact mem_chunksOf c l.length l ch x le_rfl hch hxch

/-- The kind-pair dispatch of the modelled distance query is symmetric in
its two geometries. -/
theorem distance_comm (a b : Geometry3D) : a.distance b = b.distance a := by
  unfold Geometry3D.distance
  cases ha : a.rep <;> cases hb : b.rep <;> simp [worldShape, ha, hb]
  case primitive.primitive p1 p2 =>
    cases h1 : interpPrim p1 <;> cases h2 : interpPrim p2 <;> simp
    case some.some s1 s2 =>
      rw [distShapes_symm]

/-- Raw contacts of the modelled contact generation have nonnegative depth:
the depth is the overlap of the padded surfaces, generated only when the
separation is within the padded threshold. -/
theorem rawContacts_depth_nonneg (a b : Geometry3D) (p1 p2 : ℚ)
    (cs : List ContactPoint) (h : rawContacts a b p1 p2 = .ok cs) :
    ∀ x ∈ cs, 0 ≤ x.depth := by
  unfold rawContacts at h
  split at h
  case h_1 c1 r1 c2 r2 hw1 hw2 =>
    split at h
    case isTrue hsep =>
      simp only [Except.ok.injEq] at h
      subst h
      intro x hx
      rcases List.mem_singleton.mp hx with rfl
      simp only
      linarith
    case isFalse hsep =>
      simp only [Except.ok.injEq] at h
      subst h
      intro x hx
      simp at hx
  case h_2 =>
    simp at h

/-- Registered conversion targets have faithful placeholder kinds. -/
theorem reprOfKind_kind_of_supported (s t : Kind) (h : convertSupported s t = true) :
    (reprOfKind t).kind = t := by
  cases s <;> cases t <;> simp [convertSupported] at h <;>
    simp [reprOfKind, Representn.kind]

/-- C3: `setCurrentTransform` replaces only the virtual current transform of
a geometry handle: the stored representation data is unchanged and the
acceleration-structure cache keeps its validity; `transform`, `translate`,
`rotate` and `scale` instead commit the given transform into the stored
representation data of every kind (mesh and point-cloud vertices, grid bbox
corners, hull seed points, and primitive parameters: a point's coordinates,
a segment's endpoints, an AABB's corners, a sphere's center with its radius
kept), reset the current transform to the identity, and invalidate the
cache. -/
theorem setCurrentTransform_virtual_only :
    ∀ (g : Geometry3D) (r : Mat3) (t : Vec3) (sx sy sz : ℚ),
      (g.setCurrentTransform r t).rep = g.rep ∧
      (g.setCurrentTransform r t).cacheValid = g.cacheValid ∧
      (g.setCurrentTransform r t).curR = r ∧
      (g.setCurrentTransform r t).curT = t ∧
      (g.transform r t).rep = g.rep.transformData r t ∧
      (g.transform r t).curR = idMat ∧
      (g.transform r t).curT = zeroV ∧
      (g.transform r t).cacheValid = false ∧
      (g.translate t).rep = g.rep.transformData idMat t ∧
      (g.translate t).curR = idMat ∧
      (g.translate t).curT = zeroV ∧
      (g.translate t).cacheValid = false ∧
      (g.rotate r).rep = g.rep.transformData r zeroV ∧
      (g.rotate r).curR = idMat ∧
      (g.rotate r).curT = zeroV ∧
      (g.rotate r).cacheValid = false ∧
      (g.scale sx sy sz).rep = g.rep.transformData (diagMat sx sy sz) zeroV ∧
      (g.scale sx sy sz).curR = idMat ∧
      (g.scale sx sy sz).curT = zeroV ∧
      (g.scale sx sy sz).cacheValid = false ∧
      (∀ m : TriangleMesh, (Representn.mesh m).transformData r t =
        .mesh { m with vertices := transformFlat r t m.vertices }) ∧
      (∀ pc : PointCloud, (Representn.pointCloud pc).transformData r t =
        .pointCloud { pc with vertices := transformFlat r t pc.vertices }) ∧
      (∀ vg : VolumeGrid, (Representn.volumeGrid vg).transformData r t =
        .volumeGrid { vg with bbox := transformFlat r t vg.bbox }) ∧
      (∀ ch : ConvexHull, (Representn.convexHull ch).transformData r t =
        .convexHull { ch with points := transformFlat r t ch.points }) ∧
      (∀ x y z : ℚ, (Representn.primitive ⟨"point", [x, y, z]⟩).transformData r t =
        .primitive ⟨"point", transformFlat r t [x, y, z]⟩) ∧
      (∀ ax ay az cx cy cz : ℚ,
        (Representn.primitive ⟨"segment", [ax, ay, az, cx, cy, cz]⟩).transformData r t =
          .primitive ⟨"segment", transformFlat r t [ax, ay, az, cx, cy, cz]⟩) ∧
      (∀ ax ay az cx cy cz : ℚ,
        (Representn.primitive ⟨"aabb", [ax, ay, az, cx, cy, cz]⟩).transformData r t =
          .primitive ⟨"aabb", transformFlat r t [ax, ay, az, cx, cy, cz]⟩) ∧
      (∀ x y z rad : ℚ, (Representn.primitive ⟨"sphere", [x, y, z, rad]⟩).transformData r t =
        .primitive ⟨"sphere", transformFlat r t [x, y, z] ++ [rad]⟩) := by
  intro g r t sx sy sz
  refine ⟨rfl, rfl, rfl, rfl, rfl, rfl, rfl, rfl, rfl, rfl, rfl, rfl, rfl, rfl,
    rfl, rfl, rfl, rfl, rfl, rfl, fun m => rfl, fun pc => rfl, fun vg => rfl,
    fun ch => rfl, fun x y z => rfl, fun ax ay az cx cy cz => rfl,
    fun ax ay az cx cy cz => rfl, fun x y z rad => rfl⟩

/-- C2 counterexample: the claim's enumerated table lists the directed pair
PointCloud to VolumeGrid (from "Grid-PointCloud" read as both directions),
but the source's documented conversion table does not register that pair, so
`convert` on a PointCloud handle targeting VolumeGrid fails with
`UnsupportedConversion`. -/
theorem convert_pointcloud_to_grid_refutes_claim_table :
    claimConversionTable .pointCloudK .volumeGridK = true ∧
    Geometry3D.convert
      { rep := .pointCloud ⟨[], [], [], []⟩, curR := idMat, curT := zeroV,
        cacheValid := false, margin := 0, standalone := true } .volumeGridK 0 =
      .error .unsupportedConversion := by
  exact ⟨rfl, rfl⟩

/-- C2 (amended): `convert(targetKind, param)` succeeds, producing a new
standalone handle of the target kind with a cold cache, exactly when the
directed pair (source kind, target kind) is in the source's enumerated table
(Mesh to PointCloud/Grid/ConvexHull, PointCloud to Mesh/ConvexHull,
Primitive to any, Grid to Mesh/PointCloud, ConvexHull to Mesh/PointCloud);
for every pair not enumerated it fails with `UnsupportedConversion` rather
than silently no-oping. -/
theorem convert_matches_source_table :
    (∀ (s t : Kind), convertSupported s t = true ↔ (s, t) ∈ sourceConversionPairs) ∧
    (∀ (g : Geometry3D) (tgt : Kind) (param : ℚ),
      (convertSupported g.rep.kind tgt = true →
        ∃ g', g.convert tgt param = .ok g' ∧ g'.rep.kind = tgt ∧
          g'.standalone = true ∧ g'.cacheValid = false) ∧
      (convertSupported g.rep.kind tgt = false →
        g.convert tgt param = .error .unsupportedConversion)) := by
  constructor
  · intro s t
    cases s <;> cases t <;> simp [convertSupported, sourceConversionPairs]
  · intro g tgt param
    constructor
    · intro hs
      have hok : g.convert tgt param =
          .ok { rep := reprOfKind tgt, curR := g.curR, curT := g.curT,
                cacheValid := false, margin := 0, standalone := true } := by
        unfold Geometry3D.convert
        rw [hs]
        simp
      exact ⟨_, hok, reprOfKind_kind_of_supported g.rep.kind tgt hs, rfl, rfl⟩
    · intro hs
      unfold Geometry3D.convert
      rw [hs]
      simp

/-- Witness for the amended C2 theorem at a concrete input: converting a
mesh handle to a point cloud succeeds with a standalone cold handle, and
converting it to a primitive is rejected. -/
theorem convert_matches_source_table_witness :
    (convertSupported Kind.meshK Kind.pointCloudK = true ↔
      (Kind.meshK, Kind.pointCloudK) ∈ sourceConversionPairs) ∧
    (∃ g', Geometry3D.convert
        { rep := .mesh ⟨[], []⟩, curR := idMat, curT := zeroV,
          cacheValid := true, margin := 0, standalone := false } .pointCloudK 0 =
        .ok g' ∧ g'.rep.kind = .pointCloudK ∧ g'.standalone = true ∧ g'.cacheValid = false) ∧
    Geometry3D.convert
      { rep := .mesh ⟨[], []⟩, curR := idMat, curT := zeroV,
        cacheValid := true, margin := 0, standalone := false } .primitiveK 0 =
      .error .unsupportedConversion := by
  refine ⟨convert_matches_source_table.1 .meshK .pointCloudK, ?_, ?_⟩
  · exact (convert_matches_source_table.2
      { rep := .mesh ⟨[], []⟩, curR := idMat, curT := zeroV,
        cacheValid := true, margin := 0, standalone := false } .pointCloudK 0).1 (by decide)
  · exact (convert_matches_source_table.2
      { rep := .mesh ⟨[], []⟩, curR := idMat, curT := zeroV,
        cacheValid := true, margin := 0, standalone := false } .primitiveK 0).2 (by decide)

/-- Evaluation helper: integer square root of nine. -/
theorem natSqrt_nineE : natSqrt (Int.toNat 9) = 3 := by decide

/-- Evaluation helper: integer square root of one. -/
theorem natSqrt_oneE : natSqrt 1 = 1 := by decide

/-- Evaluation helper: the modelled distance between point geometries at the
origin and at (3,0,0) is exactly 3. -/
theorem distance_points_eval :
    (pointGeom (0, 0, 0)).distance (pointGeom (3, 0, 0)) = .ok 3 := by
  simp [Geometry3D.distance, worldShape, interpPrim, pointGeom, transformShape,
    applyRT, mulMV, dotV, addV, idMat, zeroV, distShapes, dist3, subV, sqNormV,
    normV]
  norm_num
  unfold ratSqrt
  norm_num
  rw [natSqrt_nineE, natSqrt_oneE]
  norm_num

/-- C1: for geometries with computed true distance D and settings with
nonnegative error tolerances, the `_ext` queries report a value Dcalc with
Dcalc at most D*(1+relErr)+absErr unless D is at least the upper bound, in
which case exactly the upper bound is returned; in particular the reported
value never exceeds the upper bound, even when the true distance does.  The
same contract holds for `distance_point_ext` against a point geometry. -/
theorem distance_ext_upper_bound_contract :
    ∀ (a b : Geometry3D) (s : DistanceQuerySettings) (D : ℚ),
      a.distance b = .ok D → 0 ≤ D → 0 ≤ s.relErr → 0 ≤ s.absErr →
      (∃ r, a.distance_ext b s = .ok r ∧
        (r ≤ D * (1 + s.relErr) + s.absErr ∨ (s.upperBound ≤ D ∧ r = s.upperBound)) ∧
        r ≤ s.upperBound ∧
        (s.upperBound ≤ D → r = s.upperBound)) ∧
      (∀ pt, b = pointGeom pt →
        ∃ r, a.distance_point_ext pt s = .ok r ∧
          (r ≤ D * (1 + s.relErr) + s.absErr ∨ (s.upperBound ≤ D ∧ r = s.upperBound)) ∧
          r ≤ s.upperBound ∧
          (s.upperBound ≤ D → r = s.upperBound)) := by
  intro a b s D hD hD0 hrel habs
  have hkey : (extClamp D s.upperBound ≤ D * (1 + s.relErr) + s.absErr ∨
        (s.upperBound ≤ D ∧ extClamp D s.upperBound = s.upperBound)) ∧
      extClamp D s.upperBound ≤ s.upperBound ∧
      (s.upperBound ≤ D → extClamp D s.upperBound = s.upperBound) := by
    unfold extClamp
    by_cases hub : s.upperBound ≤ D
    · simp [hub]
    · simp [hub]
      constructor
      · nlinarith
      · linarith
  constructor
  · refine ⟨extClamp D s.upperBound, ?_, hkey.1, hkey.2.1, hkey.2.2⟩
    unfold Geometry3D.distance_ext
    rw [hD]
    rfl
  · intro pt hb
    refine ⟨extClamp D s.upperBound, ?_, hkey.1, hkey.2.1, hkey.2.2⟩
    unfold Geometry3D.distance_point_ext Geometry3D.distance_ext
    rw [← hb, hD]
    rfl

/-- Witness for C1 at a concrete input: two point geometries at distance 3
with upper bound 2 and zero tolerances: the reported value is clamped at the
upper bound. -/
theorem distance_ext_upper_bound_contract_witness :
    ∃ r, (pointGeom (0, 0, 0)).distance_ext (pointGeom (3, 0, 0)) ⟨0, 0, 2⟩ = .ok r ∧
      (r ≤ 3 * (1 + 0) + 0 ∨ ((2 : ℚ) ≤ 3 ∧ r = 2)) ∧
      r ≤ 2 ∧
      ((2 : ℚ) ≤ 3 → r = 2) :=
  (distance_ext_upper_bound_contract (pointGeom (0, 0, 0)) (pointGeom (3, 0, 0))
    ⟨0, 0, 2⟩ 3 distance_points_eval (by norm_num) (by norm_num) (by norm_num)).1

/-- C4: `support(dir)` on a ConvexHull handle returns the world-frame point
of the hull maximising the dot product with the direction vector; on a handle
of any other representation kind it fails with `UnsupportedOperation`. -/
theorem support_convex_hull_only :
    (∀ (g : Geometry3D) (h : ConvexHull) (dir : Vec3), g.rep = .convexHull h →
      hullWorldPoints g h ≠ [] →
      ∃ p, g.support dir = .ok p ∧ p ∈ hullWorldPoints g h ∧
        ∀ q ∈ hullWorldPoints g h, dotV q dir ≤ dotV p dir) ∧
    (∀ (g : Geometry3D) (dir : Vec3), (∀ h, g.rep ≠ .convexHull h) →
      g.support dir = .error .unsupportedOp) := by
  constructor
  · intro g h dir hrep hne
    rcases bestSupport_isSome dir (hullWorldPoints g h) hne with ⟨p, hp⟩
    refine ⟨p, ?_, bestSupport_mem dir _ p hp, bestSupport_max dir _ p hp⟩
    unfold Geometry3D.support
    rw [hrep]
    simp [hp]
  · intro g dir hrep
    unfold Geometry3D.support
    cases hg : g.rep with
    | convexHull h => exact absurd hg (hrep h)
    | mesh m => rfl
    | pointCloud pc => rfl
    | volumeGrid vg => rfl
    | primitive pr => rfl

/-- Witness for C4 at concrete inputs: on a two-point hull the support in
direction (1,0,0) is returned and maximises the dot product; on a mesh
handle `support` reports `UnsupportedOperation`. -/
theorem support_convex_hull_only_witness :
    (∃ p, Geometry3D.support
        { rep := .convexHull ⟨[0, 0, 0, 2, 0, 0]⟩, curR := idMat, curT := zeroV,
          cacheValid := false, margin := 0, standalone := true } (1, 0, 0) = .ok p ∧
      p ∈ hullWorldPoints
        { rep := .convexHull ⟨[0, 0, 0, 2, 0, 0]⟩, curR := idMat, curT := zeroV,
          cacheValid := false, margin := 0, standalone := true } ⟨[0, 0, 0, 2, 0, 0]⟩ ∧
      ∀ q ∈ hullWorldPoints
        { rep := .convexHull ⟨[0, 0, 0, 2, 0, 0]⟩, curR := idMat, curT := zeroV,
          cacheValid := false, margin := 0, standalone := true } ⟨[0, 0, 0, 2, 0, 0]⟩,
        dotV q (1, 0, 0) ≤ dotV p (1, 0, 0)) ∧
    Geometry3D.support
      { rep := .mesh ⟨[], []⟩, curR := idMat, curT := zeroV,
        cacheValid := false, margin := 0, standalone := true } (1, 0, 0) =
      .error .unsupportedOp := by
  constructor
  · exact support_convex_hull_only.1
      { rep := .convexHull ⟨[0, 0, 0, 2, 0, 0]⟩, curR := idMat, curT := zeroV,
        cacheValid := false, margin := 0, standalone := true } ⟨[0, 0, 0, 2, 0, 0]⟩
      (1, 0, 0) rfl (by simp [hullWorldPoints, toTriples])
  · exact support_convex_hull_only.2
      { rep := .mesh ⟨[], []⟩, curR := idMat, curT := zeroV,
        cacheValid := false, margin := 0, standalone := true } (1, 0, 0)
      (fun h hc => Representn.noConfusion hc)

/-- C5: `join` on point clouds succeeds exactly when the property-name
channels coincide, concatenating the vertex and property arrays so that each
point keeps its property row and its coordinates (under the documented
length invariants); mismatched property channels fail with `InvalidArgument`
and no partial merge occurs (the inputs are unchanged and no merged cloud is
produced). -/
theorem join_checks_property_channels :
    ∀ (pc1 pc2 : PointCloud),
      (pc1.propertyNames = pc2.propertyNames →
        ∃ j, pc1.join pc2 = .ok j ∧
          j.vertices = pc1.vertices ++ pc2.vertices ∧
          j.properties = pc1.properties ++ pc2.properties ∧
          j.propertyNames = pc1.propertyNames ∧
          (pc1.properties.length = pc1.numPoints * pc1.numProperties →
            pc1.vertices.length = 3 * pc1.numPoints →
            (∀ i jdx, j.getProperty (pc1.numPoints + i) jdx = pc2.getProperty i jdx) ∧
            (∀ i, j.getPoint (pc1.numPoints + i) = pc2.getPoint i) ∧
            (∀ i jdx, i < pc1.numPoints → jdx < pc1.numProperties →
              j.getProperty i jdx = pc1.getProperty i jdx) ∧
            (∀ i, i < pc1.numPoints → j.getPoint i = pc1.getPoint i))) ∧
      (pc1.propertyNames ≠ pc2.propertyNames → pc1.join pc2 = .error .invalidArgument) := by
  intro pc1 pc2
  constructor
  · intro hnames
    have hok : pc1.join pc2 =
        .ok { vertices := pc1.vertices ++ pc2.vertices,
              propertyNames := pc1.propertyNames,
              properties := pc1.properties ++ pc2.properties,
              settings := pc1.settings } := by
      unfold PointCloud.join
      rw [if_pos hnames]
    refine ⟨_, hok, rfl, rfl, rfl, ?_⟩
    intro hplen hvlen
    have hk : pc2.numProperties = pc1.numProperties := by
      unfold PointCloud.numProperties
      rw [hnames]
    refine ⟨?_, ?_, ?_, ?_⟩
    · intro i jdx
      unfold PointCloud.getProperty PointCloud.numProperties
      simp only []
      rw [List.getD_append_right pc1.properties pc2.properties 0 _ (by
        rw [hplen]
        unfold PointCloud.numProperties
        nlinarith [Nat.zero_le (i * pc1.propertyNames.length + jdx)])]
      unfold PointCloud.numProperties at hk hplen
      rw [hplen]
      congr 1
      rw [hnames]
      ring_nf
      omega
    · intro i
      unfold PointCloud.getPoint
      simp only []
      rw [List.getD_append_right pc1.vertices pc2.vertices 0 _ (by omega),
          List.getD_append_right pc1.vertices pc2.vertices 0 _ (by omega),
          List.getD_append_right pc1.vertices pc2.vertices 0 _ (by omega),
          show 3 * (pc1.numPoints + i) - pc1.vertices.length = 3 * i from by omega,
          show 3 * (pc1.numPoints + i) + 1 - pc1.vertices.length = 3 * i + 1 from by omega,
          show 3 * (pc1.numPoints + i) + 2 - pc1.vertices.length = 3 * i + 2 from by omega]
    · intro i jdx hi hj
      unfold PointCloud.getProperty PointCloud.numProperties
      simp only []
      rw [List.getD_append pc1.properties pc2.properties 0 _ (by
        rw [hplen]
        unfold PointCloud.numProperties
        have : i * pc1.propertyNames.length + jdx < (i + 1) * pc1.propertyNames.length := by
          unfold PointCloud.numProperties at hj
          nlinarith
        have h2 : (i + 1) * pc1.propertyNames.length ≤ pc1.numPoints * pc1.propertyNames.length :=
          Nat.mul_le_mul_right _ hi
        omega)]
    · intro i hi
      unfold PointCloud.getPoint
      simp only []
      rw [List.getD_append pc1.vertices pc2.vertices 0 _ (by omega),
          List.getD_append pc1.vertices pc2.vertices 0 _ (by omega),
          List.getD_append pc1.vertices pc2.vertices 0 _ (by omega)]
  · intro hnames
    unfold PointCloud.join
    rw [if_neg hnames]

/-- Witness for C5 at concrete inputs: joining one-point and two-point clouds
sharing the single property channel "a" succeeds, the second cloud's last
point keeps its property value, and joining clouds with property channels
"a" versus "b" fails with `InvalidArgument`. -/
theorem join_checks_property_channels_witness :
    (∃ j, PointCloud.join ⟨[0, 0, 0], ["a"], [5], []⟩
        ⟨[1, 1, 1, 2, 2, 2], ["a"], [7, 8], []⟩ = .ok j ∧
      j.getProperty (PointCloud.numPoints ⟨[0, 0, 0], ["a"], [5], []⟩ + 1) 0 =
        PointCloud.getProperty ⟨[1, 1, 1, 2, 2, 2], ["a"], [7, 8], []⟩ 1 0 ∧
      j.getPoint (PointCloud.numPoints ⟨[0, 0, 0], ["a"], [5], []⟩ + 1) =
        PointCloud.getPoint ⟨[1, 1, 1, 2, 2, 2], ["a"], [7, 8], []⟩ 1) ∧
    PointCloud.join ⟨[0, 0, 0], ["a"], [5], []⟩ ⟨[], ["b"], [], []⟩ =
      .error .invalidArgument := by
  constructor
  · obtain ⟨j, hok, hv, hp, hn, hrest⟩ :=
      (join_checks_property_channels ⟨[0, 0, 0], ["a"], [5], []⟩
        ⟨[1, 1, 1, 2, 2, 2], ["a"], [7, 8], []⟩).1 rfl
    obtain ⟨hprop, hpoint, hprop2, hpoint2⟩ := hrest (by decide) (by decide)
    exact ⟨j, hok, hprop 1 0, hpoint 1⟩
  · exact (join_checks_property_channels _ _).2 (by decide)

/-- C6: the modelled distance dispatch is symmetric in its two geometries for
every representation pair (supported cells return equal values in both
orders, unsupported cells fail identically in both orders); and for a
grid-versus-point query the documented sign convention holds: a grid
enclosing the query point (negative signed-distance sample, geometry.h lines
217-220) yields a negative distance, and a point outside yields a positive
distance. -/
theorem distance_symmetric_and_grid_sign :
    (∀ a b : Geometry3D, a.distance b = b.distance a) ∧
    (∀ (g : Geometry3D) (vg : VolumeGrid) (p : Vec3), g.rep = .volumeGrid vg →
      (gridEncloses g vg p → ∃ d, g.distance (pointGeom p) = .ok d ∧ d < 0) ∧
      (gridOutside g vg p → ∃ d, g.distance (pointGeom p) = .ok d ∧ 0 < d)) := by
  constructor
  · exact distance_comm
  · intro g vg p hrep
    have hd : g.distance (pointGeom p) = .ok (vg.sample (localPoint g p)) := by
      unfold Geometry3D.distance
      rw [hrep]
      simp [pointGeom, worldShape, interpPrim, transformShape, applyRT_id]
    constructor
    · intro he
      exact ⟨_, hd, he⟩
    · intro ho
      exact ⟨_, hd, ho⟩

theorem distance_symmetric_and_grid_sign_witness :
    (Geometry3D.distance
        { rep := .volumeGrid ⟨[0, 0, 0, 0, 0, 0], [1, 1, 1], [-1]⟩, curR := idMat,
          curT := zeroV, cacheValid := false, margin := 0, standalone := true }
        (pointGeom (0, 0, 0)) =
      Geometry3D.distance (pointGeom (0, 0, 0))
        { rep := .volumeGrid ⟨[0, 0, 0, 0, 0, 0], [1, 1, 1], [-1]⟩, curR := idMat,
          curT := zeroV, cacheValid := false, margin := 0, standalone := true }) ∧
    (∃ d, Geometry3D.distance
        { rep := .volumeGrid ⟨[0, 0, 0, 0, 0, 0], [1, 1, 1], [-1]⟩, curR := idMat,
          curT := zeroV, cacheValid := false, margin := 0, standalone := true }
        (pointGeom (0, 0, 0)) = .ok d ∧ d < 0) ∧
    (∃ d, Geometry3D.distance
        { rep := .volumeGrid ⟨[0, 0, 0, 0, 0, 0], [1, 1, 1], [2]⟩, curR := idMat,
          curT := zeroV, cacheValid := false, margin := 0, standalone := true }
        (pointGeom (0, 0, 0)) = .ok d ∧ 0 < d) := by
  refine ⟨distance_symmetric_and_grid_sign.1 _ _, ?_, ?_⟩
  · exact (distance_symmetric_and_grid_sign.2 _ ⟨[0, 0, 0, 0, 0, 0], [1, 1, 1], [-1]⟩
      (0, 0, 0) rfl).1 (by unfold gridEncloses; decide)
  · exact (distance_symmetric_and_grid_sign.2 _ ⟨[0, 0, 0, 0, 0, 0], [1, 1, 1], [2]⟩
      (0, 0, 0) rfl).2 (by unfold gridOutside; decide)

/-- C7: the token-level primitive serialization grammar round-trips in both
directions for the supported sub-types (point, sphere, segment, aabb):
loading a saved well-formed primitive reconstructs it, and saving after
loading any well-formed token string reproduces the string. -/
theorem primitive_text_roundtrip :
    (∀ g : GeometricPrimitive, WellFormedPrim g → loadTokens (saveTokens g) = some g) ∧
    (∀ ts : List Tok, wellFormedToks ts = true →
      ∃ g, loadTokens ts = some g ∧ saveTokens g = ts) := by
  constructor
  · intro g hwf
    unfold WellFormedPrim at hwf
    unfold saveTokens loadTokens
    dsimp only
    rw [hwf]
    simp [allNums_map_num, numsOf_map_num]
  · intro ts hwf
    cases ts with
    | nil => simp [wellFormedToks] at hwf
    | cons t rest =>
      cases t with
      | num q => simp [wellFormedToks] at hwf
      | tag ty =>
        rw [wellFormedToks] at hwf
        cases har : primArity ty with
        | none => rw [har] at hwf; simp at hwf
        | some n =>
          rw [har] at hwf
          simp at hwf
          obtain ⟨hlen, hnums⟩ := hwf
          refine ⟨⟨ty, numsOf rest⟩, ?_, ?_⟩
          · unfold loadTokens
            dsimp only
            rw [har]
            simp [hlen, hnums]
          · unfold saveTokens
            simp
            exact map_num_numsOf rest hnums

theorem primitive_text_roundtrip_witness :
    loadTokens (saveTokens ⟨"sphere", [1, 2, 3, 4]⟩) = some ⟨"sphere", [1, 2, 3, 4]⟩ ∧
    (∃ g, loadTokens [.tag ("aabb"), .num 0, .num 0, .num 0, .num 1, .num 1, .num 1] = some g ∧
      saveTokens g = [.tag ("aabb"), .num 0, .num 0, .num 0, .num 1, .num 1, .num 1]) := by
  constructor
  · exact primitive_text_roundtrip.1 ⟨"sphere", [1, 2, 3, 4]⟩
      (by unfold WellFormedPrim; decide)
  · exact primitive_text_roundtrip.2
      [.tag ("aabb"), .num 0, .num 0, .num 0, .num 1, .num 1, .num 1] (by decide)

/-- C8: when a positive contact limit is exceeded by the raw contact count,
the clustering post-process returns at most `maxContacts` representative
contact points, each an actual raw contact point (so its penetration depth
and normal are those recorded for its cluster's representative); the process
is a pure function of the key-sorted input, hence deterministic. -/
theorem contacts_cluster_cap :
    ∀ (m : ℕ) (cs : List ContactPoint), 0 < m → m < cs.length →
      (clusterContacts m cs).length ≤ m ∧
      ∀ x ∈ clusterContacts m cs, x ∈ cs := by
  intro m cs hm hgt
  exact ⟨clusterContacts_length_le m cs hm hgt, clusterContacts_subset m cs⟩

theorem contacts_cluster_cap_witness :
    (clusterContacts 1 [⟨(0, 0, 0), (0, 0, 0), (0, 0, 1), 1, 0, 0⟩,
        ⟨(1, 0, 0), (1, 0, 0), (0, 0, 1), 2, 0, 0⟩]).length ≤ 1 ∧
    ∀ x ∈ clusterContacts 1 [⟨(0, 0, 0), (0, 0, 0), (0, 0, 1), 1, 0, 0⟩,
        ⟨(1, 0, 0), (1, 0, 0), (0, 0, 1), 2, 0, 0⟩],
      x ∈ [⟨(0, 0, 0), (0, 0, 0), (0, 0, 1), 1, 0, 0⟩,
        (⟨(1, 0, 0), (1, 0, 0), (0, 0, 1), 2, 0, 0⟩ : ContactPoint)] :=
  contacts_cluster_cap 1 _ (by decide) (by decide)


/-- C9: every result of the modelled fancy distance query that reports
gradients has the gradient on the second object equal to the negation of the
gradient on the first object. -/
theorem distance_point_gradient_antisymmetry :
    ∀ (g : Geometry3D) (pt : Vec3) (res : DistanceQueryResult),
      g.distance_point pt = .ok res → res.hasGradients = true →
      res.grad2 = negV res.grad1 := by
  intro g pt res hok hgrad
  unfold Geometry3D.distance_point at hok
  cases hw : worldShape g with
  | none => rw [hw] at hok; simp at hok
  | some s =>
    rw [hw] at hok
    cases s with
    | sphereS c r =>
      simp at hok
      subst hok
      unfold spherePointQuery at hgrad ⊢
      by_cases hpc : pt = c
      · simp [hpc] at hgrad
      · simp [hpc] at hgrad ⊢
        rw [subV_swap c pt, negV_smulV]
    | pointS q =>
      simp at hok
      subst hok
      unfold pointPointQuery at hgrad ⊢
      by_cases hpq : pt = q
      · simp [hpq] at hgrad
      · simp [hpq] at hgrad ⊢
        rw [subV_swap q pt, negV_smulV]

/-- Evaluation helper: the rational square root of nine. -/
theorem ratSqrt_nine : ratSqrt 9 = 3 := by
  unfold ratSqrt
  norm_num
  rw [natSqrt_nineE, natSqrt_oneE]
  norm_num

/-- Evaluation helper: the fancy point query against a unit sphere at the
origin from the point (3,0,0). -/
theorem distance_point_sphere_eval :
    Geometry3D.distance_point
      { rep := .primitive ⟨"sphere", [0, 0, 0, 1]⟩, curR := idMat, curT := zeroV,
        cacheValid := false, margin := 0, standalone := true } (3, 0, 0) =
    .ok ⟨2, true, true, (1, 0, 0), (3, 0, 0), (1, 0, 0), (-1, 0, 0), 0, 0⟩ := by
  unfold Geometry3D.distance_point
  simp [worldShape, interpPrim, transformShape, applyRT, mulMV, dotV, addV, idMat, zeroV]
  unfold spherePointQuery
  rw [if_neg (by norm_num)]
  simp [dist3, subV, sqNormV, normV]
  norm_num
  rw [ratSqrt_nine]
  norm_num [smulV, addV, subV, Prod.ext_iff]

/-- Witness for C9 at a concrete input: the unit-sphere point query from
(3,0,0) reports gradients (1,0,0) and (-1,0,0), negations of each other. -/
theorem distance_point_gradient_antisymmetry_witness :
    (DistanceQueryResult.mk 2 true true (1, 0, 0) (3, 0, 0) (1, 0, 0) (-1, 0, 0) 0 0).grad2 =
      negV (DistanceQueryResult.mk 2 true true (1, 0, 0) (3, 0, 0) (1, 0, 0) (-1, 0, 0) 0 0).grad1 :=
  distance_point_gradient_antisymmetry
    { rep := .primitive ⟨"sphere", [0, 0, 0, 1]⟩, curR := idMat, curT := zeroV,
      cacheValid := false, margin := 0, standalone := true } (3, 0, 0)
    ⟨2, true, true, (1, 0, 0), (3, 0, 0), (1, 0, 0), (-1, 0, 0), 0, 0⟩
    distance_point_sphere_eval rfl

/-- C10: every penetration depth in a contact query result is nonnegative
(with the value 0 documented as the could-not-determine sentinel rather than
an exact zero depth, geometry.h lines 315-318). -/
theorem contact_depths_nonneg :
    ∀ (a b : Geometry3D) (p1 p2 : ℚ) (m : ℕ) (res : ContactQueryResult),
      a.contacts b p1 p2 m = .ok res → ∀ d ∈ res.depths, 0 ≤ d := by
  intro a b p1 p2 m res hok d hd
  unfold Geometry3D.contacts at hok
  cases hraw : rawContacts a b p1 p2 with
  | error e => rw [hraw] at hok; simp [Except.map] at hok
  | ok cs =>
    rw [hraw] at hok
    simp [Except.map] at hok
    subst hok
    simp [mkContactResult] at hd
    rcases hd with ⟨x, hx, rfl⟩
    exact rawContacts_depth_nonneg a b p1 p2 cs hraw x (clusterContacts_subset m cs x hx)

/-- Evaluation helper: contact query between two padded unit spheres at
distance 3 with paddings 1 and 1 produces one contact of depth 1. -/
theorem contacts_spheres_eval :
    Geometry3D.contacts
      { rep := .primitive ⟨"sphere", [0, 0, 0, 1]⟩, curR := idMat, curT := zeroV,
        cacheValid := false, margin := 0, standalone := true }
      { rep := .primitive ⟨"sphere", [3, 0, 0, 1]⟩, curR := idMat, curT := zeroV,
        cacheValid := false, margin := 0, standalone := true } 1 1 0 =
    .ok (mkContactResult [⟨(2, 0, 0), (1, 0, 0), (1, 0, 0), 1, 0, 0⟩]) := by
  unfold Geometry3D.contacts rawContacts padThreshold sphereNormal
  simp [worldShape, interpPrim, transformShape, applyRT, mulMV, dotV, addV, idMat,
    zeroV, dist3, subV, sqNormV, normV]
  norm_num
  rw [ratSqrt_nine]
  norm_num [clusterContacts, Except.map, mkContactResult, smulV, addV, subV, Prod.ext_iff]

/-- Witness for C10 at a concrete input: the depth of the single contact
between the two padded unit spheres is nonnegative. -/
theorem contact_depths_nonneg_witness :
    0 ≤ ContactPoint.depth ⟨(2, 0, 0), (1, 0, 0), (1, 0, 0), 1, 0, 0⟩ :=
  contact_depths_nonneg
    { rep := .primitive ⟨"sphere", [0, 0, 0, 1]⟩, curR := idMat, curT := zeroV,
      cacheValid := false, margin := 0, standalone := true }
    { rep := .primitive ⟨"sphere", [3, 0, 0, 1]⟩, curR := idMat, curT := zeroV,
      cacheValid := false, margin := 0, standalone := true } 1 1 0
    (mkContactResult [⟨(2, 0, 0), (1, 0, 0), (1, 0, 0), 1, 0, 0⟩])
    contacts_spheres_eval
    (ContactPoint.depth ⟨(2, 0, 0), (1, 0, 0), (1, 0, 0), 1, 0, 0⟩)
    (by simp [mkContactResult])
